import Mathlib

/-!
Verification of the mavros `SetpointTrajectoryPlugin`
(`src/mavros/src/plugins/setpoint_trajectory.cpp`).

The plugin ingests a `trajectory_msgs::MultiDOFJointTrajectory` (`local_cb`),
publishes a preview path (`publish_path`), and on every fixed-period timer tick
(`reference_cb`) linearly scans the stored points for the first whose
`time_from_start` is at least the elapsed time since ingest, emitting one
`SET_POSITION_TARGET_LOCAL_NED` setpoint for it, or clearing the stored
trajectory when no point qualifies.

The shallow embedding below models ROS time values and message scalars as
rationals (the source compares `toSec()` doubles; all claim-relevant
computation is exact field shuffling, so exact arithmetic is faithful),
lists for the ROS message vectors, and `Option`/explicit state records for
the plugin's nullable shared pointer `trajectory_target_msg` and the
`refstart_time` field.
-/

namespace SetpointTrajectory

/-- `geometry_msgs::Vector3` / `Eigen::Vector3d`, with exact coordinates. -/
structure Vector3 where
  x : ℚ
  y : ℚ
  z : ℚ
deriving DecidableEq, Repr

/-- `geometry_msgs::Quaternion` / `Eigen::Quaterniond` components. -/
structure Quaternion where
  w : ℚ
  x : ℚ
  y : ℚ
  z : ℚ
deriving DecidableEq, Repr

/-- `geometry_msgs::Transform`: a translation and a rotation. -/
structure Transform where
  translation : Vector3
  rotation : Quaternion
deriving DecidableEq, Repr

/-- `geometry_msgs::Twist`, restricted to the `linear` part the plugin reads. -/
structure Twist where
  linear : Vector3
deriving DecidableEq, Repr

/-- `trajectory_msgs::MultiDOFJointTrajectoryPoint`: the per-waypoint record.
`time_from_start` is the waypoint's time offset in seconds
(`pt.time_from_start.toSec()` in the source). -/
structure MultiDOFJointTrajectoryPoint where
  transforms : List Transform
  velocities : List Twist
  accelerations : List Twist
  time_from_start : ℚ
deriving DecidableEq, Repr

/-- `trajectory_msgs::MultiDOFJointTrajectory`: header stamp (nanoseconds,
`header.stamp.toNSec()`) plus the ordered waypoint sequence. -/
structure MultiDOFJointTrajectory where
  stamp_ns : ℕ
  points : List MultiDOFJointTrajectoryPoint
deriving DecidableEq, Repr

/-! ### Type-mask bit constants

Values of `mavlink::common::POSITION_TARGET_TYPEMASK` (resp. the equal
`mavros_msgs::PositionTarget::IGNORE_*` constants). The enum lives in the
MAVLink headers, outside `src/`; the bit values are the standard MAVLink
POSITION_TARGET_TYPEMASK assignments. -/

def X_IGNORE : ℕ := 1
def Y_IGNORE : ℕ := 2
def Z_IGNORE : ℕ := 4
def VX_IGNORE : ℕ := 8
def VY_IGNORE : ℕ := 16
def VZ_IGNORE : ℕ := 32
def AX_IGNORE : ℕ := 64
def AY_IGNORE : ℕ := 128
def AZ_IGNORE : ℕ := 256
def FORCE_SET : ℕ := 512
def YAW_IGNORE : ℕ := 1024
def YAW_RATE_IGNORE : ℕ := 2048

/-- Modelled from the spec: `ftf::transform_frame_enu_ned` (mavros `frame_tf`
library, not under `src/`) — the axis-convention swap between the ingest
convention (X-East, Y-North, Z-Up) and the transmission convention
(X-North, Y-East, Z-Down): swap X and Y and negate Z. -/
def transform_frame_enu_ned (v : Vector3) : Vector3 :=
  { x := v.y, y := v.x, z := -v.z }

/-- The local variables of one `reference_cb` loop iteration are declared
without initializers (`Eigen::Vector3d position, velocity, af;`,
`Eigen::Quaterniond attitude;`, `uint16_t type_mask;`); their values before
first assignment are indeterminate, so the embedding takes them as inputs. -/
structure LocalsInit where
  type_mask0 : ℕ
  position0 : Vector3
  velocity0 : Vector3
  af0 : Vector3
  attitude0 : Quaternion
deriving DecidableEq, Repr

/-- The `type_mask` accumulation of `reference_cb` (lines 114-128): starting
from the indeterminate initial value of the uninitialized local, OR in the
position-, velocity- and acceleration-ignore bits when the corresponding list
of the waypoint is empty. -/
def computeTypeMask (type_mask0 : ℕ) (pt : MultiDOFJointTrajectoryPoint) : ℕ :=
  let m := type_mask0
  let m := if pt.transforms.isEmpty then m ||| X_IGNORE ||| Y_IGNORE ||| Z_IGNORE else m
  let m := if pt.velocities.isEmpty then m ||| VX_IGNORE ||| VY_IGNORE ||| VZ_IGNORE else m
  let m := if pt.accelerations.isEmpty then m ||| AX_IGNORE ||| AY_IGNORE ||| AZ_IGNORE else m
  m

/-- Modelled from the spec: `set_position_target_local_ned`
(`plugin::SetPositionTargetLocalNEDMixin`, `mavros/setpoint_mixin.h`, not under
`src/`) builds and publishes one outbound SET_POSITION_TARGET_LOCAL_NED record
from its arguments, in order: `time_boot_ms`, `coordinate_frame`, `type_mask`,
position, velocity, acceleration-or-force, `yaw`, `yaw_rate` — exactly the
field list of spec section 6. The source's `yaw` argument is
`ftf::quaternion_get_yaw` applied to the attitude quaternion after the
orientation-convention composition; yaw extraction and the quaternion
convention transforms live in the `frame_tf` library (not under `src/`) and
are kept abstract here by recording in `yaw_attitude` the waypoint attitude
quaternion that pipeline is applied to. -/
structure PositionTarget where
  time_boot_ms : ℕ
  coordinate_frame : ℕ
  type_mask : ℕ
  position : Vector3
  velocity : Vector3
  acceleration_or_force : Vector3
  yaw_attitude : Quaternion
  yaw_rate : ℚ
deriving DecidableEq, Repr

/-- The body of the matched branch of `reference_cb` (lines 117-146): read the
first element of each non-empty per-waypoint list (otherwise the uninitialized
local keeps its indeterminate value), apply the ENU→NED vector transform, and
build the outbound setpoint. The accumulated `type_mask`
(`computeTypeMask l.type_mask0 pt`) is a dead local: the call passes the
literal `0` as the `type_mask` argument, and the literal `1`
(MAV_FRAME_LOCAL_NED) as `coordinate_frame`, `0` as `yaw_rate`. The timestamp
argument is `trajectory_target_msg->header.stamp.toNSec() / 1000000`. -/
def mkMessage (l : LocalsInit) (traj : MultiDOFJointTrajectory)
    (pt : MultiDOFJointTrajectoryPoint) : PositionTarget :=
  let pa :=
    match pt.transforms with
    | [] => (l.position0, l.attitude0)
    | t :: _ => (t.translation, t.rotation)
  let velocity :=
    match pt.velocities with
    | [] => l.velocity0
    | v :: _ => v.linear
  let af :=
    match pt.accelerations with
    | [] => l.af0
    | a :: _ => a.linear
  { time_boot_ms := traj.stamp_ns / 1000000
    coordinate_frame := 1
    type_mask := 0
    position := transform_frame_enu_ned pa.1
    velocity := transform_frame_enu_ned velocity
    acceleration_or_force := transform_frame_enu_ned af
    yaw_attitude := pa.2
    yaw_rate := 0 }

/-- The persistent plugin playback state: the nullable shared pointer
`trajectory_target_msg` and the acceptance time `refstart_time` (seconds). -/
structure PluginState where
  trajectory_target_msg : Option MultiDOFJointTrajectory
  refstart_time : ℚ
deriving DecidableEq, Repr

/-- The scan loop of `reference_cb`: return the first point (in sequence
order) whose `time_from_start` is greater than or equal to the elapsed time,
or `none` when the loop exhausts. -/
def findActive (elapsed : ℚ) : List MultiDOFJointTrajectoryPoint →
    Option MultiDOFJointTrajectoryPoint
  | [] => none
  | pt :: rest =>
    if pt.time_from_start ≥ elapsed then some pt else findActive elapsed rest

/-- `SetpointTrajectoryPlugin::reference_cb`: the timer tick handler. If no
trajectory is loaded, do nothing. Otherwise compute
`curr_time_from_start = now - refstart_time` and scan; on the first qualifying
point emit one setpoint and return (state untouched), and when the scan
exhausts, `trajectory_target_msg.reset()` (clear the stored trajectory,
emitting nothing). -/
def reference_cb (l : LocalsInit) (now : ℚ) (s : PluginState) :
    PluginState × Option PositionTarget :=
  match s.trajectory_target_msg with
  | none => (s, none)
  | some traj =>
    let curr_time_from_start := now - s.refstart_time
    match findActive curr_time_from_start traj.points with
    | some pt => (s, some (mkMessage l traj pt))
    | none => ({ s with trajectory_target_msg := none }, none)

/-- One pose of the published `nav_msgs::Path` preview: the position and
orientation copied field-by-field from a waypoint's first transform. -/
structure PoseStamped where
  position : Vector3
  orientation : Quaternion
deriving DecidableEq, Repr

/-- `SetpointTrajectoryPlugin::publish_path`: build the preview path by
iterating the points, skipping any whose `transforms` list is empty and
otherwise copying `transforms[0]`'s translation and rotation unmodified. -/
def publish_path : List MultiDOFJointTrajectoryPoint → List PoseStamped
  | [] => []
  | p :: rest =>
    match p.transforms with
    | [] => publish_path rest
    | t :: _ =>
      { position := t.translation, orientation := t.rotation } :: publish_path rest

/-- `SetpointTrajectoryPlugin::local_cb`: store the ingested trajectory
(last-ingest-wins), set `refstart_time = ros::Time::now()`, and publish the
preview path built from the request's points. -/
def local_cb (now : ℚ) (req : MultiDOFJointTrajectory) (_s : PluginState) :
    PluginState × List PoseStamped :=
  ({ trajectory_target_msg := some req, refstart_time := now },
   publish_path req.points)

/-- Declarative preview path, following the words of the spec: the ordered
sequence of ingest-convention positions and orientations of exactly the
waypoints that carry a pose, copied unmodified, pose-less waypoints skipped. -/
def previewPathSpec (pts : List MultiDOFJointTrajectoryPoint) : List PoseStamped :=
  pts.filterMap fun p =>
    p.transforms.head?.map fun t =>
      { position := t.translation, orientation := t.rotation }

/-! ### Bounds-checked mirror of the element accesses

`nth0` is `l[0]` as a fallible access; the checked functions below repeat the
source's branch structure, performing the access only where the source does,
so that totality of the result states that every `[0]` access is guarded by a
non-emptiness check on the same list. -/

/-- Index-0 access that reports out-of-bounds instead of being undefined. -/
def nth0 {α : Type} : List α → Except String α
  | [] => Except.error "index 0 out of bounds"
  | a :: _ => Except.ok a

/-- `mkMessage` with every `[0]` access routed through `nth0`, placed exactly
where the source indexes (`pt.transforms[0]`, `pt.velocities[0].linear`,
`pt.accelerations[0].linear`), inside the same non-emptiness branches. -/
def mkMessageChecked (l : LocalsInit) (traj : MultiDOFJointTrajectory)
    (pt : MultiDOFJointTrajectoryPoint) : Except String PositionTarget := do
  let pa ←
    if pt.transforms.isEmpty then
      pure (l.position0, l.attitude0)
    else do
      let t ← nth0 pt.transforms
      pure (t.translation, t.rotation)
  let velocity ←
    if pt.velocities.isEmpty then
      pure l.velocity0
    else do
      let v ← nth0 pt.velocities
      pure v.linear
  let af ←
    if pt.accelerations.isEmpty then
      pure l.af0
    else do
      let a ← nth0 pt.accelerations
      pure a.linear
  pure
    { time_boot_ms := traj.stamp_ns / 1000000
      coordinate_frame := 1
      type_mask := 0
      position := transform_frame_enu_ned pa.1
      velocity := transform_frame_enu_ned velocity
      acceleration_or_force := transform_frame_enu_ned af
      yaw_attitude := pa.2
      yaw_rate := 0 }

/-- `publish_path` with its `p.transforms[0]` access routed through `nth0`,
after the source's `if (p.transforms.empty()) continue;` guard. -/
def publish_pathChecked : List MultiDOFJointTrajectoryPoint →
    Except String (List PoseStamped)
  | [] => Except.ok []
  | p :: rest =>
    if p.transforms.isEmpty then
      publish_pathChecked rest
    else do
      let t ← nth0 p.transforms
      let tail ← publish_pathChecked rest
      pure ({ position := t.translation, orientation := t.rotation } :: tail)

/-! ### Concrete sample data (used by witnesses and counterexamples) -/

def qIdentity : Quaternion := { w := 1, x := 0, y := 0, z := 0 }

def tfSample : Transform :=
  { translation := { x := 1, y := 2, z := 3 }, rotation := qIdentity }

def velSample : Twist := { linear := { x := 1, y := 0, z := 0 } }

def accelSample : Twist := { linear := { x := 0, y := 0, z := 1 } }

/-- Indeterminate locals that happen to start from zero. -/
def lZero : LocalsInit :=
  { type_mask0 := 0, position0 := { x := 0, y := 0, z := 0 },
    velocity0 := { x := 0, y := 0, z := 0 }, af0 := { x := 0, y := 0, z := 0 },
    attitude0 := qIdentity }

/-- Indeterminate locals whose leftover `type_mask` value is 1. -/
def lOne : LocalsInit := { lZero with type_mask0 := 1 }

/-- A waypoint with a pose and an acceleration but an empty velocity list. -/
def wpNoVel : MultiDOFJointTrajectoryPoint :=
  { transforms := [tfSample], velocities := [], accelerations := [accelSample],
    time_from_start := 0 }

/-- A waypoint with no pose (empty `transforms`) but velocity and acceleration. -/
def wpNoPose : MultiDOFJointTrajectoryPoint :=
  { transforms := [], velocities := [velSample], accelerations := [accelSample],
    time_from_start := 0 }

/-- A waypoint with a pose and a velocity but an empty acceleration list. -/
def wpNoAccel : MultiDOFJointTrajectoryPoint :=
  { transforms := [tfSample], velocities := [velSample], accelerations := [],
    time_from_start := 0 }

/-- A waypoint with every optional list empty. -/
def wpAllAbsent : MultiDOFJointTrajectoryPoint :=
  { transforms := [], velocities := [], accelerations := [], time_from_start := 0 }

/-- A fully populated waypoint due at offset `t` seconds. -/
def mkWp (t : ℚ) : MultiDOFJointTrajectoryPoint :=
  { transforms := [tfSample], velocities := [velSample], accelerations := [accelSample],
    time_from_start := t }

def trajSample : MultiDOFJointTrajectory :=
  { stamp_ns := 1234567891234567, points := [wpNoVel] }

/-- A two-point trajectory with offsets 0 s and 2 s. -/
def trajTwo : MultiDOFJointTrajectory :=
  { stamp_ns := 5000000000, points := [mkWp 0, mkWp 2] }

/-! ### Helper lemmas -/

/-- The scan exhausts exactly when every point's offset is strictly below the
elapsed time. -/
theorem findActive_eq_none_iff (e : ℚ) (ps : List MultiDOFJointTrajectoryPoint) :
    findActive e ps = none ↔ ∀ pt ∈ ps, pt.time_from_start < e := by
  induction ps with
  | nil => simp [findActive]
  | cons p rest ih =>
    by_cases hp : p.time_from_start ≥ e
    · simp only [findActive, if_pos hp]
      constructor
      · intro h
        exact absurd h (by simp)
      · intro h
        exact absurd (h p (List.mem_cons_self p rest)) (not_lt.mpr hp)
    · simp only [findActive, if_neg hp, ih, List.mem_cons]
      constructor
      · intro h pt hpt
        rcases hpt with hpt | hpt
        · subst hpt
          exact lt_of_not_ge hp
        · exact h pt hpt
      · intro h pt hpt
        exact h pt (Or.inr hpt)

/-- A successful scan returns the element at some index `i` such that the
element qualifies and every earlier element does not. -/
theorem findActive_eq_some_first (e : ℚ) (ps : List MultiDOFJointTrajectoryPoint)
    (pt : MultiDOFJointTrajectoryPoint) (h : findActive e ps = some pt) :
    ∃ i : ℕ, ps[i]? = some pt ∧ e ≤ pt.time_from_start ∧
      ∀ (j : ℕ) (q : MultiDOFJointTrajectoryPoint),
        j < i → ps[j]? = some q → q.time_from_start < e := by
  induction ps with
  | nil => simp [findActive] at h
  | cons p rest ih =>
    by_cases hp : p.time_from_start ≥ e
    · simp only [findActive, if_pos hp, Option.some.injEq] at h
      subst h
      exact ⟨0, by simp, hp, fun j q hj _ => absurd hj (Nat.not_lt_zero j)⟩
    · simp only [findActive, if_neg hp] at h
      obtain ⟨i, hget, hle, hfirst⟩ := ih h
      refine ⟨i + 1, by simpa using hget, hle, ?_⟩
      intro j q hj hq
      match j with
      | 0 =>
        simp only [List.getElem?_cons_zero, Option.some.injEq] at hq
        subst hq
        exact lt_of_not_ge hp
      | j + 1 =>
        exact hfirst j q (Nat.lt_of_succ_lt_succ hj) (by simpa using hq)

/-- Conversely, the element at the first qualifying index is what the scan
returns. -/
theorem findActive_eq_some_of_first (e : ℚ) (ps : List MultiDOFJointTrajectoryPoint)
    (pt : MultiDOFJointTrajectoryPoint) (i : ℕ) (hget : ps[i]? = some pt)
    (hle : e ≤ pt.time_from_start)
    (hfirst : ∀ (j : ℕ) (q : MultiDOFJointTrajectoryPoint),
      j < i → ps[j]? = some q → q.time_from_start < e) :
    findActive e ps = some pt := by
  induction ps generalizing i with
  | nil => simp at hget
  | cons p rest ih =>
    match i with
    | 0 =>
      simp only [List.getElem?_cons_zero, Option.some.injEq] at hget
      subst hget
      simp [findActive, hle]
    | i + 1 =>
      have hp : p.time_from_start < e :=
        hfirst 0 p (Nat.succ_pos i) (by simp)
      simp only [findActive, if_neg (not_le.mpr hp)]
      exact ih i (by simpa using hget)
        (fun j q hj hq => hfirst (j + 1) q (Nat.succ_lt_succ hj) (by simpa using hq))

/-- The source loop and the declarative pose filter agree. -/
theorem publish_path_eq_previewPathSpec (ps : List MultiDOFJointTrajectoryPoint) :
    publish_path ps = previewPathSpec ps := by
  induction ps with
  | nil => rfl
  | cons p rest ih =>
    cases htf : p.transforms with
    | nil =>
      simp [publish_path, previewPathSpec, htf, List.filterMap_cons] at ih ⊢
      exact ih
    | cons t ts =>
      simp [publish_path, previewPathSpec, htf, List.filterMap_cons] at ih ⊢
      exact ih

/-! ### Claim theorems -/

/-- Claim C1: for every loaded trajectory and every tick, the waypoint selected
as active is exactly the first (lowest-index) waypoint whose `time_from_start`
is ≥ the elapsed time: (1) a selected waypoint sits at an index whose every
earlier waypoint has offset strictly below elapsed while it itself qualifies,
(2) the waypoint at any such first-qualifying index is the one selected, and
(3) the scan selects nothing exactly when no waypoint qualifies. -/
theorem C1_active_is_first_qualifying (e : ℚ) (ps : List MultiDOFJointTrajectoryPoint) :
    (∀ pt : MultiDOFJointTrajectoryPoint, findActive e ps = some pt →
      ∃ i : ℕ, ps[i]? = some pt ∧ e ≤ pt.time_from_start ∧
        ∀ (j : ℕ) (q : MultiDOFJointTrajectoryPoint),
          j < i → ps[j]? = some q → q.time_from_start < e) ∧
    (∀ (pt : MultiDOFJointTrajectoryPoint) (i : ℕ), ps[i]? = some pt →
      e ≤ pt.time_from_start →
      (∀ (j : ℕ) (q : MultiDOFJointTrajectoryPoint),
        j < i → ps[j]? = some q → q.time_from_start < e) →
      findActive e ps = some pt) ∧
    (findActive e ps = none ↔ ∀ pt ∈ ps, pt.time_from_start < e) :=
  ⟨fun pt h => findActive_eq_some_first e ps pt h,
   fun pt i hget hle hfirst => findActive_eq_some_of_first e ps pt i hget hle hfirst,
   findActive_eq_none_iff e ps⟩

/-- Witness for C1, the spec's selection example scaled by ten: offsets
[0, 5, 10] and elapsed 3 s select the waypoint at index 1 (offset 5). -/
theorem C1_active_is_first_qualifying_witness :
    ∃ i : ℕ, ([mkWp 0, mkWp 5, mkWp 10])[i]? = some (mkWp 5) ∧
      (3 : ℚ) ≤ (mkWp 5).time_from_start ∧
      ∀ (j : ℕ) (q : MultiDOFJointTrajectoryPoint),
        j < i → ([mkWp 0, mkWp 5, mkWp 10])[j]? = some q →
          q.time_from_start < 3 :=
  (C1_active_is_first_qualifying 3 [mkWp 0, mkWp 5, mkWp 10]).1
    (mkWp 5) (by decide)

/-- Claim C7: on every ingest, the published preview path is, in order, exactly
the positions and orientations of the waypoints whose `transforms` list is
non-empty, copied unmodified (no frame conversion), pose-less waypoints
skipped — the source loop equals the declarative spec-side filter. -/
theorem C7_preview_path_unmodified (now : ℚ) (req : MultiDOFJointTrajectory)
    (s : PluginState) :
    (local_cb now req s).2 = previewPathSpec req.points :=
  publish_path_eq_previewPathSpec req.points

/-- Claim C8: the ingest-to-transmission axis-convention transform is an
involution: applying the ENU↔NED vector swap twice returns the original
vector (exactly, in exact arithmetic). -/
theorem C8_enu_ned_involution (v : Vector3) :
    transform_frame_enu_ned (transform_frame_enu_ned v) = v := by
  cases v with
  | mk x y z => simp [transform_frame_enu_ned]

/-- Claim C9: every element access into a waypoint's `transforms`,
`velocities`, or `accelerations` lists — in the per-tick message construction
and in the preview-path builder — is guarded by a preceding non-emptiness
check on the same list: routing each `[0]` through a bounds-checked access at
exactly the source's access sites never produces an out-of-bounds error, for
any input. -/
theorem C9_element_accesses_guarded (l : LocalsInit) (traj : MultiDOFJointTrajectory)
    (pt : MultiDOFJointTrajectoryPoint) (ps : List MultiDOFJointTrajectoryPoint) :
    mkMessageChecked l traj pt = Except.ok (mkMessage l traj pt) ∧
    publish_pathChecked ps = Except.ok (publish_path ps) := by
  constructor
  · cases htf : pt.transforms <;> cases hv : pt.velocities <;>
      cases ha : pt.accelerations <;>
      simp [mkMessageChecked, mkMessage, nth0, htf, hv, ha, pure, Except.pure,
        Bind.bind, Except.bind]
  · induction ps with
    | nil => rfl
    | cons p rest ih =>
      cases htf : p.transforms with
      | nil => simp [publish_pathChecked, publish_path, htf, ih]
      | cons t ts =>
        simp [publish_pathChecked, publish_path, nth0, htf, ih, pure,
          Except.pure, Bind.bind, Except.bind]

/-- Claim C2 (defect in the code): the claim says the emitted type-mask is
built starting from zero with exactly the absent-field ignore bits set. The
source declares `uint16_t type_mask;` without an initializer and only ORs
bits into it, so the accumulated mask keeps whatever indeterminate value the
local starts with: from leftover value 1, a waypoint with an empty velocity
list accumulates X_IGNORE on top of the VX/VY/VZ bits instead of exactly the
VX/VY/VZ bits obtained from 0. Moreover the emitted message carries a literal
`0` in the `type_mask` argument, not the accumulated mask at all. -/
theorem C2_mask_not_built_from_zero :
    computeTypeMask 0 wpNoVel = (VX_IGNORE ||| VY_IGNORE ||| VZ_IGNORE) ∧
    computeTypeMask 1 wpNoVel =
      (X_IGNORE ||| VX_IGNORE ||| VY_IGNORE ||| VZ_IGNORE) ∧
    computeTypeMask 1 wpNoVel ≠ (VX_IGNORE ||| VY_IGNORE ||| VZ_IGNORE) ∧
    (mkMessage lOne trajSample wpNoVel).type_mask = 0 :=
  ⟨by decide, by decide, by decide, rfl⟩

/-- Claim C3: once the elapsed time exceeds every waypoint's offset, the tick
clears the trajectory store (leaving `refstart_time` untouched) and emits no
setpoint, and every later tick before the next ingest emits nothing and
changes no state. -/
theorem C3_completion_clears_store (l : LocalsInit) (now : ℚ) (s : PluginState)
    (traj : MultiDOFJointTrajectory)
    (hload : s.trajectory_target_msg = some traj)
    (hpast : ∀ pt ∈ traj.points, pt.time_from_start < now - s.refstart_time) :
    reference_cb l now s =
      ({ trajectory_target_msg := none, refstart_time := s.refstart_time }, none) ∧
    ∀ (l2 : LocalsInit) (now2 : ℚ),
      reference_cb l2 now2
          { trajectory_target_msg := none, refstart_time := s.refstart_time } =
        ({ trajectory_target_msg := none, refstart_time := s.refstart_time }, none) := by
  have hnone : findActive (now - s.refstart_time) traj.points = none :=
    (findActive_eq_none_iff _ _).mpr hpast
  constructor
  · simp [reference_cb, hload, hnone]
  · intro l2 now2
    simp [reference_cb]

/-- Witness for C3: a two-point trajectory (offsets 0 s and 2 s) ticked at
elapsed 3 s clears the store and emits nothing, and so does the next tick. -/
theorem C3_completion_clears_store_witness :
    reference_cb lZero 3 { trajectory_target_msg := some trajTwo, refstart_time := 0 } =
      ({ trajectory_target_msg := none, refstart_time := 0 }, none) ∧
    reference_cb lZero 4 { trajectory_target_msg := none, refstart_time := 0 } =
      ({ trajectory_target_msg := none, refstart_time := 0 }, none) :=
  ⟨(C3_completion_clears_store lZero 3
      { trajectory_target_msg := some trajTwo, refstart_time := 0 } trajTwo rfl
      (by norm_num [trajTwo, mkWp])).1,
   (C3_completion_clears_store lZero 3
      { trajectory_target_msg := some trajTwo, refstart_time := 0 } trajTwo rfl
      (by norm_num [trajTwo, mkWp])).2 lZero 4⟩

/-- Claim C4 (defect in the code): the claim says a waypoint with no
orientation (empty `transforms`) yields a setpoint whose type-mask has the
yaw-ignore bit set. The source's accumulation never ORs `YAW_IGNORE` in any
branch — from a clean start it stays clear even for a pose-less waypoint (and
even for a waypoint with every optional field absent) — and the emitted
message's mask is the literal 0, whose yaw-ignore bit is likewise clear. -/
theorem C4_yaw_ignore_not_set_when_orientation_absent :
    computeTypeMask 0 wpNoPose &&& YAW_IGNORE = 0 ∧
    computeTypeMask 0 wpAllAbsent &&& YAW_IGNORE = 0 ∧
    (mkMessage lZero trajSample wpNoPose).type_mask &&& YAW_IGNORE = 0 := by
  refine ⟨by decide, by decide, ?_⟩
  have h : (mkMessage lZero trajSample wpNoPose).type_mask = 0 := rfl
  rw [h]
  decide

/-- Claim C5: when a waypoint's accelerations list is empty (its other lists
non-empty), the bits the accumulation ORs in for that absence are exactly the
AX/AY/AZ acceleration-ignore bits, and the VX/VY/VZ velocity-ignore bits stay
clear (starting from a clean mask). -/
theorem C5_missing_acceleration_sets_acceleration_ignore_bits
    (init : ℕ) (pt : MultiDOFJointTrajectoryPoint)
    (hT : pt.transforms ≠ []) (hV : pt.velocities ≠ []) (hA : pt.accelerations = []) :
    computeTypeMask init pt = init ||| AX_IGNORE ||| AY_IGNORE ||| AZ_IGNORE ∧
    computeTypeMask 0 pt &&& (VX_IGNORE ||| VY_IGNORE ||| VZ_IGNORE) = 0 := by
  have hT2 : pt.transforms.isEmpty = false := by
    cases hx : pt.transforms with
    | nil => exact absurd hx hT
    | cons a t => rfl
  have hV2 : pt.velocities.isEmpty = false := by
    cases hx : pt.velocities with
    | nil => exact absurd hx hV
    | cons a t => rfl
  constructor
  · simp [computeTypeMask, hT2, hV2, hA]
  · simp only [computeTypeMask, hT2, hV2, hA]
    decide

/-- Witness for C5: a concrete pose-and-velocity waypoint with an empty
accelerations list, evaluated from leftover mask value 5 and from 0. -/
theorem C5_missing_acceleration_witness :
    computeTypeMask 5 wpNoAccel = 5 ||| AX_IGNORE ||| AY_IGNORE ||| AZ_IGNORE ∧
    computeTypeMask 0 wpNoAccel &&& (VX_IGNORE ||| VY_IGNORE ||| VZ_IGNORE) = 0 :=
  C5_missing_acceleration_sets_acceleration_ignore_bits 5 wpNoAccel
    (by decide) (by decide) (by decide)

/-- Claim C6: on a tick whose scan finds a qualifying waypoint, exactly one
setpoint message is emitted (the scan stops at the first match; the tick's
output is that single message), and its timestamp is the stored trajectory
header's `start_stamp` in nanoseconds divided by 1000000 — independent of the
tick's wall-clock `now`. -/
theorem C6_single_setpoint_stamped_from_start_stamp
    (l : LocalsInit) (now : ℚ) (s : PluginState) (traj : MultiDOFJointTrajectory)
    (hload : s.trajectory_target_msg = some traj)
    (hq : ∃ pt ∈ traj.points, now - s.refstart_time ≤ pt.time_from_start) :
    ∃ pt : MultiDOFJointTrajectoryPoint,
      findActive (now - s.refstart_time) traj.points = some pt ∧
      (reference_cb l now s).2 = some (mkMessage l traj pt) ∧
      (mkMessage l traj pt).time_boot_ms = traj.stamp_ns / 1000000 := by
  have hne : findActive (now - s.refstart_time) traj.points ≠ none := by
    rw [Ne, findActive_eq_none_iff]
    push_neg
    obtain ⟨pt, hmem, hle⟩ := hq
    exact ⟨pt, hmem, hle⟩
  obtain ⟨pt, hpt⟩ := Option.ne_none_iff_exists.mp hne
  refine ⟨pt, hpt.symm, ?_, by simp [mkMessage]⟩
  simp [reference_cb, hload, ← hpt]

/-- Witness for C6: ticking the two-point trajectory at elapsed 0 emits the
message for its first waypoint, stamped 5000000000 / 1000000 = 5000 ms. -/
theorem C6_single_setpoint_witness :
    ∃ pt : MultiDOFJointTrajectoryPoint,
      findActive ((0 : ℚ) - 0) trajTwo.points = some pt ∧
      (reference_cb lZero 0
        { trajectory_target_msg := some trajTwo, refstart_time := 0 }).2 =
        some (mkMessage lZero trajTwo pt) ∧
      (mkMessage lZero trajTwo pt).time_boot_ms = trajTwo.stamp_ns / 1000000 :=
  C6_single_setpoint_stamped_from_start_stamp lZero 0
    { trajectory_target_msg := some trajTwo, refstart_time := 0 } trajTwo rfl
    (by norm_num [trajTwo, mkWp])

/-- Claim C10: a tick that emits a setpoint leaves the plugin state — the
stored trajectory and the acceptance time — exactly as it was; in general the
only state a tick ever produces is either the unchanged state or the state
with the trajectory cleared and the acceptance time untouched. -/
theorem C10_tick_mutates_only_on_completion (l : LocalsInit) (now : ℚ)
    (s : PluginState) :
    (∀ msg : PositionTarget,
      (reference_cb l now s).2 = some msg → (reference_cb l now s).1 = s) ∧
    ((reference_cb l now s).1 = s ∨
      (reference_cb l now s).1 =
        { trajectory_target_msg := none, refstart_time := s.refstart_time }) := by
  cases s with
  | mk tm rt =>
    cases tm with
    | none => simp [reference_cb]
    | some traj =>
      cases hfa : findActive (now - rt) traj.points with
      | none => simp [reference_cb, hfa]
      | some pt => simp [reference_cb, hfa]

/-- Witness for C10: the emitting tick at elapsed 0 on the two-point
trajectory leaves the state unchanged. -/
theorem C10_tick_mutates_only_on_completion_witness :
    (reference_cb lZero 0
      { trajectory_target_msg := some trajTwo, refstart_time := 0 }).1 =
      { trajectory_target_msg := some trajTwo, refstart_time := 0 } :=
  (C10_tick_mutates_only_on_completion lZero 0
    { trajectory_target_msg := some trajTwo, refstart_time := 0 }).1
    (mkMessage lZero trajTwo (mkWp 0))
    (by norm_num [reference_cb, trajTwo, findActive, mkWp])

end SetpointTrajectory
